import Mathlib

/-!
Verification of the module-builder, allocator-shim and registration-sequencer
core of the `ext-php-rs` binding library, shallowly embedded in Lean.

Sources embedded:
  * `src/php/module.rs`    — `ModuleBuilder`, `ModuleEntry::into_raw`
  * `src/php/allocator.rs` — `PhpAllocator` (`alloc` / `dealloc`)
  * `ext-php-rs-derive/src/constant.rs` — the `#[php_const]` parser over the
    process-wide accumulation state

Host-side artefacts (the generated `bindings` module with `zend_module_entry`,
`ZEND_MODULE_API_NO`, `ZEND_DEBUG`, `USING_ZTS`, `_emalloc`, `_efree`,
`FunctionEntry` from `src/php/function.rs`, and `errors::Error`) are not part
of the given sources; they are modelled from the specification where needed,
each such definition marked in its doc comment.

Machine pointers are modelled as natural number addresses with `0` as the
null sentinel; C function pointers are modelled as numeric code identifiers.
Heap effects of `build()` / `into_raw()` are made explicit through a `Heap`
state threaded through the functions, recording allocated blocks and the
addresses ever freed.
-/

set_option autoImplicit false

namespace ExtPhpRs

/-- A C function pointer of type `extern "C" fn(i32, i32) -> i32`, modelled as
an abstract code identifier. -/
abbrev StartupShutdownFunc := Nat

/-- A C function pointer of type `extern "C" fn(*mut ModuleEntry)`, modelled as
an abstract code identifier. -/
abbrev InfoFunc := Nat

/-- Modelled from the spec: the error taxonomy raised during module
construction (`errors::Error` is not among the given sources).  Variants per
section 7 of the specification: `InvalidName` (embedded terminator in a
declared string), `AlreadyBuilt`, `OrderingViolation`. -/
inductive BindingError where
  | invalidName
  | alreadyBuilt
  | orderingViolation (msg : String)
  deriving DecidableEq, Repr

/-- Modelled from the spec: a Function Descriptor record
(`FunctionEntry` lives in `src/php/function.rs`, not among the given
sources).  The spec only requires that the table-terminating sentinel be the
all-zero record, so the record is modelled with its zend field shape: name
pointer, handler pointer, arg-info pointer, arg count and flags. -/
structure FunctionEntry where
  fname : Nat
  handler : Nat
  arg_info : Nat
  num_args : Nat
  flags : Nat
  deriving DecidableEq, Repr

/-- Modelled from the spec: `FunctionEntry::end()`, the all-zero sentinel
record terminating every function table. -/
def FunctionEntry.endEntry : FunctionEntry :=
  { fname := 0, handler := 0, arg_info := 0, num_args := 0, flags := 0 }

/-- A function entry is the all-zero sentinel. -/
def FunctionEntry.isAllZero (f : FunctionEntry) : Prop :=
  f.fname = 0 ∧ f.handler = 0 ∧ f.arg_info = 0 ∧ f.num_args = 0 ∧ f.flags = 0

instance (f : FunctionEntry) : Decidable f.isAllZero := by
  unfold FunctionEntry.isAllZero; infer_instance

/-- Host build configuration: the constants the generated `bindings` module
feeds into `ModuleBuilder::new` (`ZEND_MODULE_API_NO`, `ZEND_DEBUG`,
`USING_ZTS`, `mem::size_of::<ModuleEntry>()`, and the pointer returned by
`ext_php_rs_php_build_id()`).  These are fixed per host build; the embedding
is parametric in them. -/
structure HostConfig where
  ZEND_MODULE_API_NO : Nat
  ZEND_DEBUG : Nat
  USING_ZTS : Nat
  sizeof_ModuleEntry : Nat
  php_build_id : Nat
  deriving DecidableEq, Repr

/-- Modelled from the spec: the module record `zend_module_entry` (the
generated `bindings` module is not among the given sources).  Field names and
order follow the initializer in `ModuleBuilder::new` (src/php/module.rs) and
the host-defined layout of section 6 of the specification.  Pointer fields are
addresses with `0` as null; callback slots are `Option` over code
identifiers. -/
structure ModuleEntry where
  size : Nat
  zend_api : Nat
  zend_debug : Nat
  zts : Nat
  ini_entry : Nat
  deps : Nat
  name : Nat
  functions : Nat
  module_startup_func : Option StartupShutdownFunc
  module_shutdown_func : Option StartupShutdownFunc
  request_startup_func : Option StartupShutdownFunc
  request_shutdown_func : Option StartupShutdownFunc
  info_func : Option InfoFunc
  version : Nat
  globals_size : Nat
  globals_ptr : Nat
  globals_ctor : Option Nat
  globals_dtor : Option Nat
  post_deactivate_func : Option Nat
  module_started : Nat
  type_ : Nat
  handle : Nat
  module_number : Nat
  build_id : Nat
  deriving DecidableEq, Repr

/-- The builder from src/php/module.rs: name and version held as native byte
strings (`String`), the partially initialized module record, and the
accumulated function entries. -/
structure ModuleBuilder where
  name : List Nat
  version : List Nat
  module : ModuleEntry
  functions : List FunctionEntry
  deriving DecidableEq, Repr

/-- Source `ModuleBuilder::new` (src/php/module.rs lines 64–99): initializes the
module record with size / ABI number / debug / ZTS from the host build
configuration (with the source's `as u16` / `as u8` narrowing), all pointer
fields null, all callback slots unset, and the host build id. -/
def ModuleBuilder.new (cfg : HostConfig) (name version : List Nat) : ModuleBuilder :=
  { name := name
    version := version
    module :=
      { size := cfg.sizeof_ModuleEntry % 2 ^ 16
        zend_api := cfg.ZEND_MODULE_API_NO
        zend_debug := cfg.ZEND_DEBUG % 2 ^ 8
        zts := cfg.USING_ZTS % 2 ^ 8
        ini_entry := 0
        deps := 0
        name := 0
        functions := 0
        module_startup_func := none
        module_shutdown_func := none
        request_startup_func := none
        request_shutdown_func := none
        info_func := none
        version := 0
        globals_size := 0
        globals_ptr := 0
        globals_ctor := none
        globals_dtor := none
        post_deactivate_func := none
        module_started := 0
        type_ := 0
        handle := 0
        module_number := 0
        build_id := cfg.php_build_id }
    functions := [] }

/-- Source `ModuleBuilder::startup_function`: `self.module.module_startup_func = Some(func)`. -/
def ModuleBuilder.startup_function (b : ModuleBuilder) (func : StartupShutdownFunc) : ModuleBuilder :=
  { b with module := { b.module with module_startup_func := some func } }

/-- Source `ModuleBuilder::shutdown_function`: `self.module.module_shutdown_func = Some(func)`. -/
def ModuleBuilder.shutdown_function (b : ModuleBuilder) (func : StartupShutdownFunc) : ModuleBuilder :=
  { b with module := { b.module with module_shutdown_func := some func } }

/-- Source `ModuleBuilder::request_startup_function` (src/php/module.rs line 127):
the body assigns `self.module.module_startup_func = Some(func)` — the
*module* startup slot, exactly as in the source. -/
def ModuleBuilder.request_startup_function (b : ModuleBuilder) (func : StartupShutdownFunc) : ModuleBuilder :=
  { b with module := { b.module with module_startup_func := some func } }

/-- Source `ModuleBuilder::request_shutdown_function` (src/php/module.rs line 137):
the body assigns `self.module.module_shutdown_func = Some(func)` — the
*module* shutdown slot, exactly as in the source. -/
def ModuleBuilder.request_shutdown_function (b : ModuleBuilder) (func : StartupShutdownFunc) : ModuleBuilder :=
  { b with module := { b.module with module_shutdown_func := some func } }

/-- Source `ModuleBuilder::info_function`: `self.module.info_func = Some(func)`. -/
def ModuleBuilder.info_function (b : ModuleBuilder) (func : InfoFunc) : ModuleBuilder :=
  { b with module := { b.module with info_func := some func } }

/-- Source `ModuleBuilder::function`: `self.functions.push(func)`. -/
def ModuleBuilder.function (b : ModuleBuilder) (func : FunctionEntry) : ModuleBuilder :=
  { b with functions := b.functions ++ [func] }

/-- A heap block produced by the builder: a boxed function-entry slice, a
`CString` buffer, or a boxed module record. -/
inductive Block where
  | funcTable (entries : List FunctionEntry)
  | cstr (bytes : List Nat)
  | moduleRecord (m : ModuleEntry)
  deriving DecidableEq, Repr

/-- Explicit heap state threaded through `build` / `into_raw`: the next fresh
address (nonzero, so allocated addresses are never the null sentinel), the
allocated blocks, and every address ever freed. -/
structure Heap where
  next : Nat
  blocks : List (Nat × Block)
  freed : List Nat
  deriving DecidableEq, Repr

/-- The empty heap, with addresses starting at 1. -/
def Heap.empty : Heap := { next := 1, blocks := [], freed := [] }

/-- Allocate a block at a fresh stable address. -/
def Heap.alloc (h : Heap) (b : Block) : Nat × Heap :=
  (h.next, { next := h.next + 1, blocks := (h.next, b) :: h.blocks, freed := h.freed })

/-- Look up an address in an allocation list (first binding wins, matching
the freshness discipline of `Heap.alloc`). -/
def lookupBlocks : List (Nat × Block) → Nat → Option Block
  | [], _ => none
  | (k, b) :: rest, a => if k = a then some b else lookupBlocks rest a

/-- Look up the block at an address. -/
def Heap.lookup (h : Heap) (a : Nat) : Option Block :=
  lookupBlocks h.blocks a

/-- Source `CString::new` on a native byte string: fails on an embedded terminator
(NUL) byte, otherwise yields the bytes unchanged (no truncation).  The
`NulError` is mapped to `BindingError.invalidName`; modelled from the spec,
since `errors::Error` and its `From<NulError>` impl are not among the given
sources. -/
def cstringNew (s : List Nat) : Except BindingError (List Nat) :=
  if 0 ∈ s then .error .invalidName else .ok s

/-- Source `ModuleBuilder::build` (src/php/module.rs lines 164–172), with the heap
effects explicit.  In source order: push the terminating sentinel and leak the
boxed function slice (`Box::into_raw`), then convert the name and the version
with `CString::new(..)?.into_raw()`.  Each `into_raw` is an allocation whose
address is stored in the record and whose ownership leaves the builder; the
function frees nothing. -/
def ModuleBuilder.build (b : ModuleBuilder) (h : Heap) : Except BindingError ModuleEntry × Heap :=
  let functions := b.functions ++ [FunctionEntry.endEntry]
  let (fptr, h1) := h.alloc (.funcTable functions)
  match cstringNew b.name with
  | .error e => (.error e, h1)
  | .ok nameBytes =>
    let (nptr, h2) := h1.alloc (.cstr nameBytes)
    match cstringNew b.version with
    | .error e => (.error e, h2)
    | .ok versionBytes =>
      let (vptr, h3) := h2.alloc (.cstr versionBytes)
      (.ok { b.module with functions := fptr, name := nptr, version := vptr }, h3)

/-- Source `ModuleEntry::into_raw` (src/php/module.rs lines 177–179):
`Box::into_raw(Box::new(self))` — box the record at a fresh stable address and
release it to the C world; nothing is freed. -/
def ModuleEntry.into_raw (m : ModuleEntry) (h : Heap) : Nat × Heap :=
  h.alloc (.moduleRecord m)

/-! ## Allocator shim (src/php/allocator.rs) -/

/-- Type `std::alloc::Layout`: requested size and alignment. -/
structure Layout where
  size : Nat
  align : Nat
  deriving DecidableEq, Repr

/-- A call into a host-runtime allocation entry point, with the exact argument
list the shim passes (`_emalloc(size, null, 0, null, 0)` /
`_efree(ptr, null, 0, null, 0)`; null pointers modelled as 0). -/
inductive HostCall where
  | emalloc (size : Nat) (filename : Nat) (lineno : Nat) (orig_filename : Nat) (orig_lineno : Nat)
  | efree (ptr : Nat) (filename : Nat) (lineno : Nat) (orig_filename : Nat) (orig_lineno : Nat)
  deriving DecidableEq, Repr

/-- The zero-sized `PhpAllocator` struct. -/
structure PhpAllocator where
  deriving DecidableEq, Repr

/-- Source `PhpAllocator::new`. -/
def PhpAllocator.new : PhpAllocator := {}

/-- Source `PhpAllocator::alloc` (src/php/allocator.rs lines 21–29): returns
`_emalloc(layout.size() as _, null_mut(), 0, null_mut(), 0)` cast to a byte
pointer.  The host entry point `_emalloc` (generated bindings, not among the
given sources) is an oracle `Nat → Nat` from requested size to returned
pointer; the result is paired with the exact list of host calls issued. -/
def PhpAllocator.alloc (_self : PhpAllocator) (emallocImpl : Nat → Nat) (layout : Layout) :
    Nat × List HostCall :=
  (emallocImpl layout.size, [HostCall.emalloc layout.size 0 0 0 0])

/-- Source `PhpAllocator::dealloc` (src/php/allocator.rs lines 31–39): calls
`_efree(ptr as *mut _, null_mut(), 0, null_mut(), 0)`, ignoring the layout
argument entirely; the result is the exact list of host calls issued. -/
def PhpAllocator.dealloc (_self : PhpAllocator) (ptr : Nat) (_layout : Layout) : List HostCall :=
  [HostCall.efree ptr 0 0 0 0]

/-! ## Registration sequencer (ext-php-rs-derive/src/constant.rs) -/

/-- The `Constant` record accumulated by the `#[php_const]` parser: constant
name and the token rendering of its value expression. -/
structure Constant where
  name : String
  value : String
  deriving DecidableEq, Repr

/-- Type `syn::ItemConst` as the parser consumes it: the identifier and the token
rendering of the value expression. -/
structure ItemConst where
  ident : String
  expr : String
  deriving DecidableEq, Repr

/-- Modelled from the spec: the process-wide accumulation state `STATE` of the
derive crate (its definition is not among the given sources; the fields used
by the constant parser are `startup_function` and `constants`, and the spec's
sequencer accumulates declared functions and classes besides). -/
structure State where
  startup_function : Option String
  constants : List Constant
  functions : List String
  classes : List String
  deriving DecidableEq, Repr

/-- The token stream the parser emits on success:
`#[allow(dead_code)] #input`, i.e. the input item reemitted under an
`allow(dead_code)` attribute. -/
structure TokenStream where
  item : ItemConst
  deriving DecidableEq, Repr

/-- The exact message of the `bail!` in the constant parser. -/
def constantOrderingMsg : String :=
  "Constants must be declared before you declare your startup function and module function."

/-- Source `parser` (ext-php-rs-derive/src/constant.rs lines 16–32) as a state
transformer over the accumulation state: if a startup function is already
recorded, bail with `constantOrderingMsg` leaving the state untouched;
otherwise push the constant (name from the identifier, value from the token
rendering of the expression) and emit the reannotated item. -/
def parser (input : ItemConst) (s : State) : Except String TokenStream × State :=
  if s.startup_function.isSome then
    (.error constantOrderingMsg, s)
  else
    (.ok { item := input },
     { s with constants := s.constants ++ [{ name := input.ident, value := input.expr }] })

/-! ## Configuration-call interleavings

To speak about "any order of configuration calls" on a builder, the fluent
configuration interface is reified as a list of calls applied left to
right. -/

/-- One fluent configuration call on a `ModuleBuilder`. -/
inductive ConfigCall where
  | startup (f : StartupShutdownFunc)
  | shutdown (f : StartupShutdownFunc)
  | requestStartup (f : StartupShutdownFunc)
  | requestShutdown (f : StartupShutdownFunc)
  | info (f : InfoFunc)
  | function (e : FunctionEntry)
  deriving DecidableEq, Repr

/-- Apply one configuration call to a builder. -/
def applyCall (b : ModuleBuilder) : ConfigCall → ModuleBuilder
  | .startup f => b.startup_function f
  | .shutdown f => b.shutdown_function f
  | .requestStartup f => b.request_startup_function f
  | .requestShutdown f => b.request_shutdown_function f
  | .info f => b.info_function f
  | .function e => b.function e

/-- Apply a sequence of configuration calls left to right. -/
def applyCalls (b : ModuleBuilder) (calls : List ConfigCall) : ModuleBuilder :=
  calls.foldl applyCall b

/-- The function entries added by a sequence of configuration calls, in call
order. -/
def addedFunctions (calls : List ConfigCall) : List FunctionEntry :=
  calls.filterMap (fun c => match c with | .function e => some e | _ => none)

/-! ## Helper lemmas -/

theorem applyCall_functions (b : ModuleBuilder) (c : ConfigCall) :
    (applyCall b c).functions =
      b.functions ++ (match c with | .function e => [e] | _ => []) := by
  cases c <;>
    simp [applyCall, ModuleBuilder.startup_function, ModuleBuilder.shutdown_function,
      ModuleBuilder.request_startup_function, ModuleBuilder.request_shutdown_function,
      ModuleBuilder.info_function, ModuleBuilder.function]

theorem applyCalls_functions (calls : List ConfigCall) (b : ModuleBuilder) :
    (applyCalls b calls).functions = b.functions ++ addedFunctions calls := by
  induction calls generalizing b with
  | nil => simp [applyCalls, addedFunctions]
  | cons c rest ih =>
    have : applyCalls b (c :: rest) = applyCalls (applyCall b c) rest := rfl
    rw [this, ih, applyCall_functions]
    cases c <;> simp [addedFunctions]

theorem build_fst_error_of_name {b : ModuleBuilder} {h : Heap}
    (hn : (0 : Nat) ∈ b.name) : (b.build h).1 = .error .invalidName := by
  simp [ModuleBuilder.build, cstringNew, hn, Heap.alloc]

theorem build_fst_error_of_version {b : ModuleBuilder} {h : Heap}
    (hn : (0 : Nat) ∉ b.name) (hv : (0 : Nat) ∈ b.version) :
    (b.build h).1 = .error .invalidName := by
  simp [ModuleBuilder.build, cstringNew, hn, hv, Heap.alloc]

theorem build_eq_of_valid {b : ModuleBuilder} {h : Heap}
    (hn : (0 : Nat) ∉ b.name) (hv : (0 : Nat) ∉ b.version) :
    b.build h =
      (.ok { b.module with functions := h.next, name := h.next + 1, version := h.next + 2 },
       { next := h.next + 3,
         blocks :=
           (h.next + 2, .cstr b.version) ::
           (h.next + 1, .cstr b.name) ::
           (h.next, .funcTable (b.functions ++ [FunctionEntry.endEntry])) :: h.blocks,
         freed := h.freed }) := by
  simp [ModuleBuilder.build, cstringNew, hn, hv, Heap.alloc]

theorem build_ok_inv {b : ModuleBuilder} {h : Heap} {m : ModuleEntry} {h' : Heap}
    (hb : b.build h = (.ok m, h')) :
    (0 : Nat) ∉ b.name ∧ (0 : Nat) ∉ b.version ∧
    m = { b.module with functions := h.next, name := h.next + 1, version := h.next + 2 } ∧
    h' = { next := h.next + 3,
           blocks :=
             (h.next + 2, .cstr b.version) ::
             (h.next + 1, .cstr b.name) ::
             (h.next, .funcTable (b.functions ++ [FunctionEntry.endEntry])) :: h.blocks,
           freed := h.freed } := by
  by_cases hn : (0 : Nat) ∈ b.name
  · have := build_fst_error_of_name (h := h) hn
    rw [hb] at this
    exact absurd this (by simp)
  · by_cases hv : (0 : Nat) ∈ b.version
    · have := build_fst_error_of_version (h := h) hn hv
      rw [hb] at this
      exact absurd this (by simp)
    · have heq := build_eq_of_valid (h := h) hn hv
      rw [hb] at heq
      obtain ⟨h1, h2⟩ := Prod.mk.injEq .. ▸ heq
      refine ⟨hn, hv, ?_, h2⟩
      exact Except.ok.inj h1

theorem build_ok_fields {b : ModuleBuilder} {h : Heap} {m : ModuleEntry} {h' : Heap}
    (hb : b.build h = (.ok m, h')) :
    (0 : Nat) ∉ b.name ∧ (0 : Nat) ∉ b.version ∧
    m.functions = h.next ∧ m.name = h.next + 1 ∧ m.version = h.next + 2 ∧
    h'.next = h.next + 3 ∧
    h'.blocks =
      (h.next + 2, Block.cstr b.version) ::
      (h.next + 1, Block.cstr b.name) ::
      (h.next, Block.funcTable (b.functions ++ [FunctionEntry.endEntry])) :: h.blocks ∧
    h'.freed = h.freed := by
  obtain ⟨hn, hv, hm, hh⟩ := build_ok_inv hb
  subst hm; subst hh
  exact ⟨hn, hv, rfl, rfl, rfl, rfl, rfl, rfl⟩

theorem lookupBlocks_cons_eq (k : Nat) (b : Block) (rest : List (Nat × Block)) :
    lookupBlocks ((k, b) :: rest) k = some b := by
  simp [lookupBlocks]

theorem lookupBlocks_cons_ne (k a : Nat) (b : Block) (rest : List (Nat × Block))
    (hka : k ≠ a) : lookupBlocks ((k, b) :: rest) a = lookupBlocks rest a := by
  simp [lookupBlocks, hka]

theorem new_functions (cfg : HostConfig) (name version : List Nat) :
    (ModuleBuilder.new cfg name version).functions = [] := rfl

theorem into_raw_lookup_self (m : ModuleEntry) (h : Heap) :
    (m.into_raw h).2.lookup (m.into_raw h).1 = some (Block.moduleRecord m) := by
  simp [ModuleEntry.into_raw, Heap.alloc, Heap.lookup, lookupBlocks]

theorem into_raw_lookup_ne (m : ModuleEntry) (h : Heap) (a : Nat) (ha : h.next ≠ a) :
    (m.into_raw h).2.lookup a = h.lookup a := by
  simp only [ModuleEntry.into_raw, Heap.alloc, Heap.lookup]
  exact lookupBlocks_cons_ne _ _ _ _ ha

/-! ## Concrete instances used by witnesses and counterexamples -/

/-- A concrete host build configuration for witnesses. -/
def cfg0 : HostConfig :=
  { ZEND_MODULE_API_NO := 20210902, ZEND_DEBUG := 0, USING_ZTS := 0,
    sizeof_ModuleEntry := 168, php_build_id := 7 }

/-- A concrete non-sentinel function entry. -/
def fn2 : FunctionEntry :=
  { fname := 11, handler := 12, arg_info := 13, num_args := 1, flags := 0 }

/-- Concrete builder for the C2 witness: one function added. -/
def b2 : ModuleBuilder :=
  applyCalls (ModuleBuilder.new cfg0 [97] [98]) [ConfigCall.function fn2]

/-- Concrete module record produced by building `b2` on the empty heap. -/
def m2 : ModuleEntry := { b2.module with functions := 1, name := 2, version := 3 }

/-- Concrete heap produced by building `b2` on the empty heap. -/
def h2 : Heap :=
  { next := 4,
    blocks := [(3, Block.cstr [98]), (2, Block.cstr [97]),
               (1, Block.funcTable [fn2, FunctionEntry.endEntry])],
    freed := [] }

/-- Concrete builder for the C8 witness. -/
def b8 : ModuleBuilder := ModuleBuilder.new cfg0 [109] [118]

/-- Concrete module record produced by building `b8` on the empty heap. -/
def m8 : ModuleEntry := { b8.module with functions := 1, name := 2, version := 3 }

/-- Concrete heap produced by building `b8` on the empty heap. -/
def h8 : Heap :=
  { next := 4,
    blocks := [(3, Block.cstr [118]), (2, Block.cstr [109]),
               (1, Block.funcTable [FunctionEntry.endEntry])],
    freed := [] }

/-! ## Claim C1 -/

/-- C1: at the failing input — a fresh builder — `request_startup_function 42`
leaves the request-startup slot unset (`none`) and instead overwrites the
*module*-startup slot with `some 42`; likewise `request_shutdown_function 43`
leaves the request-shutdown slot unset and overwrites the module-shutdown
slot.  The request-scoped slots are never written, contradicting both the
claim and the methods' own doc comments ("Sets the request startup/shutdown
function"). -/
theorem C1_request_setters_write_module_slots :
    ((ModuleBuilder.new cfg0 [97] [98]).request_startup_function 42).module.request_startup_func
        = none ∧
    ((ModuleBuilder.new cfg0 [97] [98]).request_startup_function 42).module.module_startup_func
        = some 42 ∧
    ((ModuleBuilder.new cfg0 [97] [98]).request_shutdown_function 43).module.request_shutdown_func
        = none ∧
    ((ModuleBuilder.new cfg0 [97] [98]).request_shutdown_function 43).module.module_shutdown_func
        = some 43 :=
  ⟨rfl, rfl, rfl, rfl⟩

/-! ## Claim C2 -/

/-- C2: for every host configuration, every interleaving of configuration
calls, and every starting heap, a successful `build()` stores, at the module
record's function-table address, exactly the added function entries in call
order followed by the all-zero sentinel as the last element. -/
theorem C2_function_table_sentinel_terminated
    (cfg : HostConfig) (name version : List Nat) (calls : List ConfigCall)
    (h : Heap) (m : ModuleEntry) (h' : Heap)
    (hb : (applyCalls (ModuleBuilder.new cfg name version) calls).build h = (.ok m, h')) :
    h'.lookup m.functions =
      some (.funcTable (addedFunctions calls ++ [FunctionEntry.endEntry])) ∧
    FunctionEntry.endEntry.isAllZero := by
  obtain ⟨-, -, hmf, -, -, -, hbl, -⟩ := build_ok_fields hb
  refine ⟨?_, ⟨rfl, rfl, rfl, rfl, rfl⟩⟩
  simp only [Heap.lookup]
  rw [hbl, hmf, applyCalls_functions, new_functions, List.nil_append,
    lookupBlocks_cons_ne _ _ _ _ (by omega), lookupBlocks_cons_ne _ _ _ _ (by omega),
    lookupBlocks_cons_eq]

/-- C2 witness: building a concrete builder with one added function on the
empty heap yields a table holding that function followed by the sentinel. -/
theorem C2_function_table_sentinel_terminated_witness :
    h2.lookup m2.functions =
      some (.funcTable (addedFunctions [ConfigCall.function fn2] ++ [FunctionEntry.endEntry])) ∧
    FunctionEntry.endEntry.isAllZero :=
  C2_function_table_sentinel_terminated cfg0 [97] [98] [ConfigCall.function fn2]
    Heap.empty m2 h2 (by rfl)

/-! ## Claim C3 -/

/-- C3 counterexample: with a startup function already declared, the constant
parser does reject — but with the source's bail message, which is not the
payload `"constants must precede startup"` stated in the claim, and the error
is a plain message, not a `BindingError::OrderingViolation` value. -/
theorem C3_counterexample_message_differs :
    (parser { ident := "B", expr := "1" }
        { startup_function := some ("startup"), constants := [], functions := [],
          classes := [] }).1
      = .error constantOrderingMsg ∧
    (constantOrderingMsg == "constants must precede startup") = false :=
  ⟨rfl, by decide⟩

/-- C3 amended: declaring a top-level constant after a startup callback has
been declared is rejected with the error message "Constants must be declared
before you declare your startup function and module function.", and declaring
a constant while no startup callback has been declared is accepted, emitting
the reannotated item. -/
theorem C3_amended_constant_rejected_iff_startup_declared
    (input : ItemConst) (s : State) :
    (parser input s).1 =
      if s.startup_function.isSome then .error constantOrderingMsg
      else .ok { item := input } := by
  by_cases hs : s.startup_function.isSome <;> simp [parser, hs]

/-! ## Claim C4 -/

/-- C4: `build()` fails with `InvalidName` exactly when the declared name or
version contains an embedded terminator (NUL) byte; when neither does,
`build()` succeeds and the stored name and version buffers hold the native
strings unchanged (no truncation). -/
theorem C4_embedded_nul_rejected_never_truncated (b : ModuleBuilder) (h : Heap) :
    ((b.build h).1 = .error .invalidName ↔ ((0 : Nat) ∈ b.name ∨ (0 : Nat) ∈ b.version)) ∧
    ((0 : Nat) ∉ b.name → (0 : Nat) ∉ b.version →
      ∃ m : ModuleEntry, (b.build h).1 = .ok m ∧
        (b.build h).2.lookup m.name = some (.cstr b.name) ∧
        (b.build h).2.lookup m.version = some (.cstr b.version)) := by
  constructor
  · constructor
    · intro he
      by_contra hc
      push_neg at hc
      obtain ⟨hn, hv⟩ := hc
      rw [build_eq_of_valid hn hv] at he
      simp at he
    · rintro (hn | hv)
      · exact build_fst_error_of_name hn
      · by_cases hn : (0 : Nat) ∈ b.name
        · exact build_fst_error_of_name hn
        · exact build_fst_error_of_version hn hv
  · intro hn hv
    obtain ⟨m, h', hb⟩ : ∃ m h', b.build h = (.ok m, h') := by
      rw [build_eq_of_valid hn hv]; exact ⟨_, _, rfl⟩
    obtain ⟨-, -, -, hmn, hmv, -, hbl, -⟩ := build_ok_fields hb
    have hsnd : (b.build h).2 = h' := by rw [hb]
    refine ⟨m, by rw [hb], ?_, ?_⟩
    · rw [hsnd, hmn]
      simp only [Heap.lookup]
      rw [hbl, lookupBlocks_cons_ne _ _ _ _ (by omega), lookupBlocks_cons_eq]
    · rw [hsnd, hmv]
      simp only [Heap.lookup]
      rw [hbl, lookupBlocks_cons_eq]

/-- C4 witness: a concrete builder with NUL-free name and version builds
successfully, with the stored buffers equal to the declared strings. -/
theorem C4_embedded_nul_rejected_never_truncated_witness :
    ∃ m : ModuleEntry,
      ((ModuleBuilder.new cfg0 [104, 105] [49]).build Heap.empty).1 = .ok m ∧
      ((ModuleBuilder.new cfg0 [104, 105] [49]).build Heap.empty).2.lookup m.name
          = some (.cstr [104, 105]) ∧
      ((ModuleBuilder.new cfg0 [104, 105] [49]).build Heap.empty).2.lookup m.version
          = some (.cstr [49]) :=
  (C4_embedded_nul_rejected_never_truncated (ModuleBuilder.new cfg0 [104, 105] [49])
    Heap.empty).2 (by decide) (by decide)

/-! ## Claim C5 -/

/-- C5 counterexample: `build()` performs no already-built check.  In the
embedding, applying `build` to the same concrete builder a second time — even
on the heap produced by the first call — succeeds again instead of failing
with `AlreadyBuilt`.  (In the source, a second call is impossible: `build`
takes `self` by value, so single-use is enforced by the compiler, not by an
`AlreadyBuilt` error.) -/
theorem C5_counterexample_second_build_succeeds :
    ((ModuleBuilder.new cfg0 [97] [98]).build Heap.empty).1.toOption.isSome = true ∧
    ((ModuleBuilder.new cfg0 [97] [98]).build
        ((ModuleBuilder.new cfg0 [97] [98]).build Heap.empty).2).1.toOption.isSome = true :=
  ⟨rfl, rfl⟩

/-- C5 amended: `build()` consumes the builder (it takes `self` by value), so
calling it twice or adding functions afterward is rejected at compile time by
ownership, not at run time; the build body contains no already-built check and
its only outcomes are success or `InvalidName` — it never produces
`AlreadyBuilt`. -/
theorem C5_amended_build_never_already_built (b : ModuleBuilder) (h : Heap) :
    (b.build h).1 = .error .invalidName ∨ ∃ m : ModuleEntry, (b.build h).1 = .ok m := by
  by_cases hn : (0 : Nat) ∈ b.name
  · exact .inl (build_fst_error_of_name hn)
  · by_cases hv : (0 : Nat) ∈ b.version
    · exact .inl (build_fst_error_of_version hn hv)
    · exact .inr ⟨_, by rw [build_eq_of_valid hn hv]⟩

/-! ## Claim C6 -/

/-- C6: a freshly created builder's module record has every
not-explicitly-set pointer field equal to the null/zero sentinel (ini-entry,
dependency table, name, function table, version, globals pointer, opaque
handle), every lifecycle/info callback slot unset, and size, ABI version
number, debug flag and thread-safety flag filled from the host build
configuration (with the source's `as u16` / `as u8` narrowing). -/
theorem C6_new_module_record_defaults (cfg : HostConfig) (name version : List Nat) :
    (ModuleBuilder.new cfg name version).module.ini_entry = 0 ∧
    (ModuleBuilder.new cfg name version).module.deps = 0 ∧
    (ModuleBuilder.new cfg name version).module.name = 0 ∧
    (ModuleBuilder.new cfg name version).module.functions = 0 ∧
    (ModuleBuilder.new cfg name version).module.version = 0 ∧
    (ModuleBuilder.new cfg name version).module.globals_ptr = 0 ∧
    (ModuleBuilder.new cfg name version).module.handle = 0 ∧
    (ModuleBuilder.new cfg name version).module.module_startup_func = none ∧
    (ModuleBuilder.new cfg name version).module.module_shutdown_func = none ∧
    (ModuleBuilder.new cfg name version).module.request_startup_func = none ∧
    (ModuleBuilder.new cfg name version).module.request_shutdown_func = none ∧
    (ModuleBuilder.new cfg name version).module.info_func = none ∧
    (ModuleBuilder.new cfg name version).module.globals_ctor = none ∧
    (ModuleBuilder.new cfg name version).module.globals_dtor = none ∧
    (ModuleBuilder.new cfg name version).module.post_deactivate_func = none ∧
    (ModuleBuilder.new cfg name version).module.size = cfg.sizeof_ModuleEntry % 2 ^ 16 ∧
    (ModuleBuilder.new cfg name version).module.zend_api = cfg.ZEND_MODULE_API_NO ∧
    (ModuleBuilder.new cfg name version).module.zend_debug = cfg.ZEND_DEBUG % 2 ^ 8 ∧
    (ModuleBuilder.new cfg name version).module.zts = cfg.USING_ZTS % 2 ^ 8 :=
  ⟨rfl, rfl, rfl, rfl, rfl, rfl, rfl, rfl, rfl, rfl, rfl, rfl, rfl, rfl, rfl, rfl, rfl,
   rfl, rfl⟩

/-! ## Claim C7 -/

/-- C7: for every allocation request the shim returns exactly what the host's
request-arena entry point returns for the requested size, and the complete
list of host calls it issues is the single `_emalloc(size, null, 0, null, 0)`;
for every deallocation the complete list of host calls is the single
`_efree(ptr, null, 0, null, 0)`.  No allocation or bookkeeping of the shim's
own appears anywhere. -/
theorem C7_allocator_delegates_to_host (a : PhpAllocator) (emallocImpl : Nat → Nat)
    (layout : Layout) (ptr : Nat) (layout' : Layout) :
    a.alloc emallocImpl layout
        = (emallocImpl layout.size, [HostCall.emalloc layout.size 0 0 0 0]) ∧
    a.dealloc ptr layout' = [HostCall.efree ptr 0 0 0 0] :=
  ⟨rfl, rfl⟩

/-! ## Claim C8 -/

/-- C8: after a successful `build()`, the function array, name string and
version string live at stable allocated addresses recorded in the module
record, and the builder freed nothing (`freed` is unchanged); `into_raw` then
boxes the module record at a fresh stable address, again freeing nothing and
leaving the earlier buffers untouched. -/
theorem C8_build_relinquishes_stable_buffers
    (b : ModuleBuilder) (h : Heap) (m : ModuleEntry) (h' : Heap)
    (hb : b.build h = (.ok m, h')) :
    h'.lookup m.functions = some (.funcTable (b.functions ++ [FunctionEntry.endEntry])) ∧
    h'.lookup m.name = some (.cstr b.name) ∧
    h'.lookup m.version = some (.cstr b.version) ∧
    h'.freed = h.freed ∧
    ((m.into_raw h').2.lookup (m.into_raw h').1 = some (.moduleRecord m) ∧
     (m.into_raw h').2.freed = h'.freed ∧
     (m.into_raw h').2.lookup m.functions = h'.lookup m.functions ∧
     (m.into_raw h').2.lookup m.name = h'.lookup m.name ∧
     (m.into_raw h').2.lookup m.version = h'.lookup m.version) := by
  obtain ⟨-, -, hmf, hmn, hmv, hnext, hbl, hfr⟩ := build_ok_fields hb
  refine ⟨?_, ?_, ?_, hfr, into_raw_lookup_self m h', rfl, ?_, ?_, ?_⟩
  · rw [hmf]
    simp only [Heap.lookup]
    rw [hbl, lookupBlocks_cons_ne _ _ _ _ (by omega), lookupBlocks_cons_ne _ _ _ _ (by omega),
      lookupBlocks_cons_eq]
  · rw [hmn]
    simp only [Heap.lookup]
    rw [hbl, lookupBlocks_cons_ne _ _ _ _ (by omega), lookupBlocks_cons_eq]
  · rw [hmv]
    simp only [Heap.lookup]
    rw [hbl, lookupBlocks_cons_eq]
  · exact into_raw_lookup_ne m h' _ (by rw [hnext, hmf]; omega)
  · exact into_raw_lookup_ne m h' _ (by rw [hnext, hmn]; omega)
  · exact into_raw_lookup_ne m h' _ (by rw [hnext, hmv]; omega)

/-- C8 witness: building a concrete builder on the empty heap leaves its three
buffers allocated at stable addresses with nothing freed, and `into_raw`
preserves all of them. -/
theorem C8_build_relinquishes_stable_buffers_witness :
    h8.lookup m8.functions = some (.funcTable (b8.functions ++ [FunctionEntry.endEntry])) ∧
    h8.lookup m8.name = some (.cstr b8.name) ∧
    h8.lookup m8.version = some (.cstr b8.version) ∧
    h8.freed = Heap.empty.freed ∧
    ((m8.into_raw h8).2.lookup (m8.into_raw h8).1 = some (.moduleRecord m8) ∧
     (m8.into_raw h8).2.freed = h8.freed ∧
     (m8.into_raw h8).2.lookup m8.functions = h8.lookup m8.functions ∧
     (m8.into_raw h8).2.lookup m8.name = h8.lookup m8.name ∧
     (m8.into_raw h8).2.lookup m8.version = h8.lookup m8.version) :=
  C8_build_relinquishes_stable_buffers b8 Heap.empty m8 h8 (by rfl)

/-! ## Claim C9 -/

/-- C9: when a top-level constant declaration is rejected because a startup
function is already recorded, the accumulation state is returned unchanged —
the constant is not appended and no other field is touched. -/
theorem C9_rejected_constant_leaves_state_unchanged (input : ItemConst) (s : State)
    (hs : s.startup_function.isSome = true) :
    (parser input s).2 = s := by
  simp [parser, hs]

/-- C9 witness: a concrete rejected declaration leaves the concrete state
exactly as it was. -/
theorem C9_rejected_constant_leaves_state_unchanged_witness :
    (parser { ident := "B", expr := "2" }
        { startup_function := some ("startup"), constants := [{ name := "A", value := "1" }],
          functions := [], classes := [] }).2
      = { startup_function := some ("startup"), constants := [{ name := "A", value := "1" }],
          functions := [], classes := [] } :=
  C9_rejected_constant_leaves_state_unchanged { ident := "B", expr := "2" }
    { startup_function := some ("startup"), constants := [{ name := "A", value := "1" }],
      functions := [], classes := [] } rfl

/-! ## Claim C10 -/

/-- C10: the shim ignores alignment — any two layouts of equal size produce
the identical `alloc` behavior (same host call, same result), and `dealloc`
behaves identically for any two layouts whatsoever, equal-sized or not. -/
theorem C10_alloc_ignores_alignment (a : PhpAllocator) (emallocImpl : Nat → Nat)
    (l1 l2 l3 l4 : Layout) (ptr : Nat) :
    (l1.size = l2.size → a.alloc emallocImpl l1 = a.alloc emallocImpl l2) ∧
    a.dealloc ptr l3 = a.dealloc ptr l4 := by
  constructor
  · intro hsz
    simp [PhpAllocator.alloc, hsz]
  · rfl

/-- C10 witness: two layouts of size 8 with alignments 1 and 8 produce the
identical allocation behavior, and deallocation behaves identically even for
two layouts of different sizes and alignments. -/
theorem C10_alloc_ignores_alignment_witness :
    PhpAllocator.new.alloc (fun sz => sz + 1000) { size := 8, align := 1 }
        = PhpAllocator.new.alloc (fun sz => sz + 1000) { size := 8, align := 8 } ∧
    PhpAllocator.new.dealloc 555 { size := 8, align := 1 }
        = PhpAllocator.new.dealloc 555 { size := 16, align := 4 } :=
  ⟨(C10_alloc_ignores_alignment PhpAllocator.new (fun sz => sz + 1000)
      { size := 8, align := 1 } { size := 8, align := 8 }
      { size := 8, align := 1 } { size := 16, align := 4 } 555).1 rfl,
   (C10_alloc_ignores_alignment PhpAllocator.new (fun sz => sz + 1000)
      { size := 8, align := 1 } { size := 8, align := 8 }
      { size := 8, align := 1 } { size := 16, align := 4 } 555).2⟩

end ExtPhpRs
